import Mathlib

/-
Verification of the color-picker utility (src/Color picker/color_picker/src/main.rs).

The program is a polling loop: each iteration queries the mouse cursor position
(an i32 pair), captures the full screen to a fixed temporary file, opens and
decodes that image, reads the pixel at the cursor coordinates cast to u32,
prints the coordinate and RGB color on standard output, deletes the temporary
file, and sleeps one second.  Errors are written with eprintln to standard
error; an unrecognized pixel channel layout exits with code 2, a failed file
removal exits with code 1, and a failed image open (the expect call) or an
out-of-bounds pixel access is a Rust panic, which terminates the process with
exit status 101 after printing the panic message on standard error.

The embedding below models one call of get_rgb as a pure function of an
environment (the captured image, whether the open/decode succeeds, whether the
file removal succeeds) and the cursor coordinates, producing the list of
stream writes, whether the temporary file is left on disk, and the exit
outcome.  The main loop is modelled as an event-trace semantics: each
iteration contributes its events in program order, and a fatal exit stops the
whole run.
-/

namespace ColorPicker

/-- Two to the 32nd power: the modulus of the Rust cast from i32 to u32. -/
def U32MOD : Nat := 4294967296

/-- The Rust cast x as u32 on an i32 value: the value modulo 2 to the 32. -/
def toU32 (n : Int) : Nat := (n % (U32MOD : Int)).toNat

/-- A decoded raster image: dimensions plus the channel values (bytes) stored
at each in-bounds coordinate.  The channel list length is the pixel layout
(3 for RGB, 4 for RGBA, other lengths for other layouts). -/
structure Image where
  width : Nat
  height : Nat
  pixelAt : Nat → Nat → List Nat

/-- The image crate get_pixel on a decoded image: returns the channel values
at (x, y) when in bounds, and none (modelling the documented panic) when
(x, y) is outside the image bounds. -/
def getPixel (img : Image) (x y : Nat) : Option (List Nat) :=
  if x < img.width ∧ y < img.height then some (img.pixelAt x y) else none

/-- The two output streams of the process. -/
inductive Stream where
  | stdout
  | stderr
deriving DecidableEq

/-- A line written by the program.  report is the println of the sampled
coordinate and RGB triple; the others are the eprintln error messages and the
panic messages. -/
inductive Line where
  | report (x y : Int) (r g b : Nat)
  | unexpectedPixelFormat
  | errorRemovingFile
  | panicFailedToOpen
  | panicPixelOutOfBounds
deriving DecidableEq

/-- Whether a line is the normal sampling report (the println line). -/
def isReport : Line → Bool
  | Line.report _ _ _ _ _ => true
  | _ => false

/-- How the process run ends: exit with the given status code.  Process exit
via std::process::exit carries the given code; a Rust panic terminates with
status 101. -/
inductive ExitKind where
  | code (n : Nat)
deriving DecidableEq

/-- The observable outcome of one call of get_rgb: the writes performed on the
two streams in order, whether the temporary screenshot file is still on disk
afterwards, and the exit outcome (none means the call returned normally). -/
structure StepOutput where
  writes : List (Stream × Line)
  fileOnDisk : Bool
  exit : Option ExitKind
deriving DecidableEq

/-- The environment of one iteration: the image the screen capture produces at
the temporary path, whether image::open succeeds on it, and whether
fs::remove_file succeeds. -/
structure Env where
  captured : Image
  openOk : Bool
  removeOk : Bool

/-- The tail of get_rgb after a 3- or 4-channel pixel was matched: print the
report line on stdout, then attempt fs::remove_file; on failure print the
error on stderr and exit with code 1. -/
def reportAndClean (env : Env) (x y : Int) (r g b : Nat) : StepOutput :=
  if env.removeOk then
    { writes := [(Stream.stdout, Line.report x y r g b)]
      fileOnDisk := false
      exit := none }
  else
    { writes := [(Stream.stdout, Line.report x y r g b),
                 (Stream.stderr, Line.errorRemovingFile)]
      fileOnDisk := true
      exit := some (ExitKind.code 1) }

/-- The body of get_rgb from the source: capture the screen to the temporary
file, open the image (panic on failure), read the pixel at the coordinates
cast to u32 (panic when out of bounds), match the channel slice against the
three-channel and four-channel patterns (any other layout prints an error and
exits with code 2), print the report, then remove the temporary file (print an
error and exit with code 1 on failure). -/
def get_rgb (env : Env) (x y : Int) : StepOutput :=
  if env.openOk then
    match getPixel env.captured (toU32 x) (toU32 y) with
    | none =>
        { writes := [(Stream.stderr, Line.panicPixelOutOfBounds)]
          fileOnDisk := true
          exit := some (ExitKind.code 101) }
    | some cs =>
        match cs with
        | [r, g, b] => reportAndClean env x y r g b
        | [r, g, b, _a] => reportAndClean env x y r g b
        | _ =>
            { writes := [(Stream.stderr, Line.unexpectedPixelFormat)]
              fileOnDisk := true
              exit := some (ExitKind.code 2) }
  else
    { writes := [(Stream.stderr, Line.panicFailedToOpen)]
      fileOnDisk := true
      exit := some (ExitKind.code 101) }

/-- A synthetic test image of the given dimensions whose pixel at (px, py)
holds the RGB channels (r, g, b) and whose other pixels are black. -/
def mkImage (w h px py r g b : Nat) : Image :=
  { width := w
    height := h
    pixelAt := fun a c => if a = px ∧ c = py then [r, g, b] else [0, 0, 0] }

/-- The observable steps of one loop iteration of main, in program order:
query the cursor, capture the screen to the temporary file, open and decode
the image, print the report line, delete the temporary file, sleep. -/
inductive Event where
  | queryCursor (x y : Int)
  | capture
  | openDecode
  | report (x y : Int) (r g b : Nat)
  | deleteTemp
  | sleep
deriving DecidableEq

/-- The tail of an iteration trace after a 3- or 4-channel pixel was matched:
the report event, then either the deletion and the sleep (removal succeeded)
or a fatal exit with code 1 (removal failed). -/
def iterFinish (env : Env) (x y : Int) (r g b : Nat) :
    List Event × Option ExitKind :=
  if env.removeOk then
    ([Event.queryCursor x y, Event.capture, Event.openDecode,
      Event.report x y r g b, Event.deleteTemp, Event.sleep], none)
  else
    ([Event.queryCursor x y, Event.capture, Event.openDecode,
      Event.report x y r g b], some (ExitKind.code 1))

/-- The event trace of one iteration of the main loop, with its exit outcome:
the iteration stops at the first fatal step (failed open, out-of-bounds pixel,
unrecognized layout, failed removal); otherwise it runs all six steps. -/
def iterTrace (env : Env) (x y : Int) : List Event × Option ExitKind :=
  if env.openOk then
    match getPixel env.captured (toU32 x) (toU32 y) with
    | none =>
        ([Event.queryCursor x y, Event.capture, Event.openDecode],
         some (ExitKind.code 101))
    | some cs =>
        match cs with
        | [r, g, b] => iterFinish env x y r g b
        | [r, g, b, _a] => iterFinish env x y r g b
        | _ =>
            ([Event.queryCursor x y, Event.capture, Event.openDecode],
             some (ExitKind.code 2))
  else
    ([Event.queryCursor x y, Event.capture],
     some (ExitKind.code 101))

/-- Running the main loop for up to n iterations against a script assigning to
each iteration its environment and cursor position.  A fatal exit in some
iteration stops the run: later iterations contribute no events. -/
def run (script : Nat → Env × Int × Int) : Nat → List Event × Option ExitKind
  | 0 => ([], none)
  | n + 1 =>
      let prev := run script n
      if prev.2.isSome then prev
      else
        let p := script n
        let r := iterTrace p.1 p.2.1 p.2.2
        (prev.1 ++ r.1, r.2)

/-- Effect of one event on the set of files on disk (files named by Nat
identifiers; path is the fixed temporary screenshot path).  The capture
overwrites the file at the fixed path, the deletion removes it; no other step
touches the filesystem. -/
def applyEvent (path : Nat) (fs : List Nat) : Event → List Nat
  | Event.capture => if path ∈ fs then fs else path :: fs
  | Event.deleteTemp => fs.erase path
  | _ => fs

/-- The set of files on disk after executing a trace of events from the given
initial filesystem. -/
def fsAfter (path : Nat) (fs : List Nat) : List Event → List Nat
  | [] => fs
  | e :: es => fsAfter path (applyEvent path fs e) es

/-- An iteration is clean when the open succeeds, the pixel lookup lands in
bounds on a 3- or 4-channel pixel, and the file removal succeeds. -/
def iterOk (env : Env) (x y : Int) : Prop :=
  env.openOk = true ∧ env.removeOk = true ∧
    ∃ r g b rest, getPixel env.captured (toU32 x) (toU32 y) =
        some (r :: g :: b :: rest) ∧ (rest = [] ∨ ∃ a, rest = [a])

/-- The channel of a pixel at the given index, defaulting to 0. -/
def chan (cs : List Nat) (i : Nat) : Nat := cs.getD i 0

/-- The full six-event trace of a clean iteration, in program order. -/
def fullIter (env : Env) (x y : Int) : List Event :=
  let cs := (getPixel env.captured (toU32 x) (toU32 y)).getD []
  [Event.queryCursor x y, Event.capture, Event.openDecode,
   Event.report x y (chan cs 0) (chan cs 1) (chan cs 2),
   Event.deleteTemp, Event.sleep]

/-- Filesystem invariant: the files on disk are at most the single fixed
temporary path. -/
def FsInv (path : Nat) (fs : List Nat) : Prop := fs = [] ∨ fs = [path]

/-- A sample 100 by 100 capture whose every pixel is RGB (1, 2, 3). -/
def sampleImage : Image :=
  { width := 100, height := 100, pixelAt := fun _ _ => [1, 2, 3] }

/-- A sample environment where open and removal both succeed. -/
def sampleEnv : Env :=
  { captured := sampleImage, openOk := true, removeOk := true }

/-- A sample loop script: every iteration uses the sample environment with the
cursor at (5, 7). -/
def sampleScript : Nat → Env × Int × Int := fun _ => (sampleEnv, 5, 7)

/-- A capture as wide as the whole u32 range, whose pixel in column
4294967295 of row 0 is RGB (7, 8, 9). -/
def wideImage : Image :=
  { width := U32MOD
    height := 1
    pixelAt := fun a _ => if a = 4294967295 then [7, 8, 9] else [0, 0, 0] }

theorem toU32_eq_toNat (x : Int) (h0 : 0 ≤ x) (hlt : x < (U32MOD : Int)) :
    toU32 x = x.toNat := by
  unfold toU32
  rw [Int.emod_eq_of_lt h0 hlt]

theorem reportAndClean_spec (env : Env) (x y : Int) (r g b : Nat) :
    (env.removeOk = true ∧ reportAndClean env x y r g b =
        { writes := [(Stream.stdout, Line.report x y r g b)]
          fileOnDisk := false
          exit := none }) ∨
    (env.removeOk = false ∧ reportAndClean env x y r g b =
        { writes := [(Stream.stdout, Line.report x y r g b),
                     (Stream.stderr, Line.errorRemovingFile)]
          fileOnDisk := true
          exit := some (ExitKind.code 1) }) := by
  cases h : env.removeOk with
  | false => exact Or.inr ⟨rfl, by simp [reportAndClean, h]⟩
  | true => exact Or.inl ⟨rfl, by simp [reportAndClean, h]⟩

theorem get_rgb_spec (env : Env) (x y : Int) :
    (env.openOk = false ∧ get_rgb env x y =
        { writes := [(Stream.stderr, Line.panicFailedToOpen)]
          fileOnDisk := true
          exit := some (ExitKind.code 101) }) ∨
    (env.openOk = true ∧ getPixel env.captured (toU32 x) (toU32 y) = none ∧
      get_rgb env x y =
        { writes := [(Stream.stderr, Line.panicPixelOutOfBounds)]
          fileOnDisk := true
          exit := some (ExitKind.code 101) }) ∨
    (∃ r g b rest, env.openOk = true ∧
        getPixel env.captured (toU32 x) (toU32 y) = some (r :: g :: b :: rest) ∧
        (rest = [] ∨ ∃ a, rest = [a]) ∧
        get_rgb env x y = reportAndClean env x y r g b) ∨
    (∃ cs, env.openOk = true ∧
        getPixel env.captured (toU32 x) (toU32 y) = some cs ∧
        cs.length ≠ 3 ∧ cs.length ≠ 4 ∧
        get_rgb env x y =
          { writes := [(Stream.stderr, Line.unexpectedPixelFormat)]
            fileOnDisk := true
            exit := some (ExitKind.code 2) }) := by
  cases ho : env.openOk with
  | false => exact Or.inl ⟨rfl, by simp [get_rgb, ho]⟩
  | true =>
    cases hp : getPixel env.captured (toU32 x) (toU32 y) with
    | none => exact Or.inr (Or.inl ⟨rfl, rfl, by simp [get_rgb, ho, hp]⟩)
    | some cs =>
      rcases cs with _ | ⟨r, _ | ⟨g, _ | ⟨b, _ | ⟨a, _ | ⟨e, es⟩⟩⟩⟩⟩
      · exact Or.inr (Or.inr (Or.inr ⟨[], rfl, rfl, by simp, by simp, by simp [get_rgb, ho, hp]⟩))
      · exact Or.inr (Or.inr (Or.inr ⟨[r], rfl, rfl, by simp, by simp, by simp [get_rgb, ho, hp]⟩))
      · exact Or.inr (Or.inr (Or.inr ⟨[r, g], rfl, rfl, by simp, by simp, by simp [get_rgb, ho, hp]⟩))
      · exact Or.inr (Or.inr (Or.inl ⟨r, g, b, [], rfl, rfl, Or.inl rfl, by simp [get_rgb, ho, hp]⟩))
      · exact Or.inr (Or.inr (Or.inl ⟨r, g, b, [a], rfl, rfl, Or.inr ⟨a, rfl⟩, by simp [get_rgb, ho, hp]⟩))
      · refine Or.inr (Or.inr (Or.inr ⟨r :: g :: b :: a :: e :: es, rfl, rfl, by simp, by simp, ?_⟩))
        simp [get_rgb, ho, hp]

/-- C1: decoding a synthetically constructed image whose pixel at the cursor
coordinate was set to the given channel values reports exactly those values:
for every in-bounds coordinate, get_rgb on such an image prints the report
line with those channels, deletes the file, and exits normally. -/
theorem C1_decode_reports_stored_channels (w h : Nat) (x y : Int) (r g b : Nat)
    (hx0 : 0 ≤ x) (hy0 : 0 ≤ y)
    (hxw : x.toNat < w) (hyh : y.toNat < h)
    (hw : w ≤ U32MOD) (hh : h ≤ U32MOD) :
    get_rgb { captured := mkImage w h x.toNat y.toNat r g b
              openOk := true
              removeOk := true } x y =
      { writes := [(Stream.stdout, Line.report x y r g b)]
        fileOnDisk := false
        exit := none } := by
  have hxu : toU32 x = x.toNat :=
    toU32_eq_toNat x hx0 (by omega)
  have hyu : toU32 y = y.toNat :=
    toU32_eq_toNat y hy0 (by omega)
  have hpix : getPixel (mkImage w h x.toNat y.toNat r g b) (toU32 x) (toU32 y) =
      some [r, g, b] := by
    rw [hxu, hyu]
    simp [getPixel, mkImage, hxw, hyh]
  simp [get_rgb, hpix, reportAndClean]

/-- C1 witness at a concrete input: a 10 by 10 image whose pixel at (4, 2)
holds (250, 100, 7). -/
theorem C1_witness :
    get_rgb { captured := mkImage 10 10 (Int.toNat 4) (Int.toNat 2) 250 100 7
              openOk := true
              removeOk := true } 4 2 =
      { writes := [(Stream.stdout, Line.report 4 2 250 100 7)]
        fileOnDisk := false
        exit := none } :=
  C1_decode_reports_stored_channels 10 10 4 2 250 100 7
    (by decide) (by decide) (by decide) (by decide) (by decide) (by decide)

/-- C2: the decoder normalizes every decoded pixel to an RGB triple: a
4-channel pixel is reported as its first three channels for every alpha
value, and a 3-channel pixel is reported unchanged. -/
theorem C2_alpha_discarded (env : Env) (x y : Int) (r g b : Nat)
    (hopen : env.openOk = true) (hrm : env.removeOk = true) :
    (∀ a, getPixel env.captured (toU32 x) (toU32 y) = some [r, g, b, a] →
        get_rgb env x y =
          { writes := [(Stream.stdout, Line.report x y r g b)]
            fileOnDisk := false
            exit := none }) ∧
    (getPixel env.captured (toU32 x) (toU32 y) = some [r, g, b] →
        get_rgb env x y =
          { writes := [(Stream.stdout, Line.report x y r g b)]
            fileOnDisk := false
            exit := none }) := by
  constructor
  · intro a hp
    simp [get_rgb, hopen, hp, reportAndClean, hrm]
  · intro hp
    simp [get_rgb, hopen, hp, reportAndClean, hrm]

/-- C2 witness at a concrete input: an RGBA image with alpha 128 is reported
without its alpha channel. -/
theorem C2_witness :
    get_rgb { captured := { width := 8, height := 8, pixelAt := fun _ _ => [1, 2, 3, 128] }
              openOk := true
              removeOk := true } 0 0 =
      { writes := [(Stream.stdout, Line.report 0 0 1 2 3)]
        fileOnDisk := false
        exit := none } :=
  (C2_alpha_discarded
    { captured := { width := 8, height := 8, pixelAt := fun _ _ => [1, 2, 3, 128] }
      openOk := true
      removeOk := true } 0 0 1 2 3 rfl rfl).1 128 (by decide)

/-- C3: the exit codes map one-to-one to error conditions: get_rgb exits with
code 1 exactly when a 3- or 4-channel pixel was decoded and the removal of the
temporary file fails, and with code 2 exactly when the decoded pixel layout is
neither 3- nor 4-channel; each condition is reported by its own distinct
message on standard error. -/
theorem C3_exit_codes_one_to_one (env : Env) (x y : Int) :
    ((get_rgb env x y).exit = some (ExitKind.code 1) ↔
      (env.openOk = true ∧ env.removeOk = false ∧
        ∃ cs, getPixel env.captured (toU32 x) (toU32 y) = some cs ∧
          (cs.length = 3 ∨ cs.length = 4))) ∧
    ((get_rgb env x y).exit = some (ExitKind.code 2) ↔
      (env.openOk = true ∧
        ∃ cs, getPixel env.captured (toU32 x) (toU32 y) = some cs ∧
          cs.length ≠ 3 ∧ cs.length ≠ 4)) ∧
    ((get_rgb env x y).exit = some (ExitKind.code 1) →
      (Stream.stderr, Line.errorRemovingFile) ∈ (get_rgb env x y).writes ∧
      (Stream.stderr, Line.unexpectedPixelFormat) ∉ (get_rgb env x y).writes) ∧
    ((get_rgb env x y).exit = some (ExitKind.code 2) →
      (Stream.stderr, Line.unexpectedPixelFormat) ∈ (get_rgb env x y).writes ∧
      (Stream.stderr, Line.errorRemovingFile) ∉ (get_rgb env x y).writes) := by
  rcases get_rgb_spec env x y with
    ⟨ho, hg⟩ | ⟨ho, hp, hg⟩ | ⟨r, g, b, rest, ho, hp, hrest, hg⟩ | ⟨cs, ho, hp, h3, h4, hg⟩
  · refine ⟨?_, ?_, ?_, ?_⟩ <;> simp [hg, ho]
  · refine ⟨?_, ?_, ?_, ?_⟩ <;> simp [hg, ho, hp]
  · rcases hrest with rfl | ⟨a, rfl⟩ <;>
      rcases reportAndClean_spec env x y r g b with ⟨hr, hc⟩ | ⟨hr, hc⟩ <;>
      refine ⟨?_, ?_, ?_, ?_⟩ <;>
      simp [hg, hc, ho, hr, hp]
  · refine ⟨?_, ?_, ?_, ?_⟩ <;> simp [hg, ho, hp, h3, h4]

/-- C3 witness at a concrete input: a single-channel (grayscale) image makes
get_rgb exit with code 2 and report the unexpected-pixel-format message. -/
theorem C3_witness :
    (get_rgb { captured := { width := 8, height := 8, pixelAt := fun _ _ => [9] }
               openOk := true
               removeOk := true } 0 0).exit = some (ExitKind.code 2) :=
  ((C3_exit_codes_one_to_one
    { captured := { width := 8, height := 8, pixelAt := fun _ _ => [9] }
      openOk := true
      removeOk := true } 0 0).2.1).mpr ⟨rfl, [9], by decide, by decide, by decide⟩

/-- C6: an out-of-bounds coordinate is a defined error outcome: when the cast
coordinates fall outside the image bounds the lookup takes the panic branch
(reported on standard error, exit status 101), and when they are in bounds
that branch is unreachable. -/
theorem C6_out_of_bounds_defined (env : Env) (x y : Int)
    (hopen : env.openOk = true) :
    (¬ (toU32 x < env.captured.width ∧ toU32 y < env.captured.height) →
      get_rgb env x y =
        { writes := [(Stream.stderr, Line.panicPixelOutOfBounds)]
          fileOnDisk := true
          exit := some (ExitKind.code 101) }) ∧
    ((toU32 x < env.captured.width ∧ toU32 y < env.captured.height) →
      ∀ s, (s, Line.panicPixelOutOfBounds) ∉ (get_rgb env x y).writes) := by
  constructor
  · intro hob
    have hp : getPixel env.captured (toU32 x) (toU32 y) = none := by
      simp [getPixel, hob]
    simp [get_rgb, hopen, hp]
  · intro hib s
    have hp : getPixel env.captured (toU32 x) (toU32 y) =
        some (env.captured.pixelAt (toU32 x) (toU32 y)) := by
      simp [getPixel, hib]
    rcases get_rgb_spec env x y with
      ⟨ho, _⟩ | ⟨_, hnone, _⟩ | ⟨r, g, b, rest, _, _, _, hg⟩ | ⟨cs, _, _, _, _, hg⟩
    · rw [ho] at hopen
      exact absurd hopen (by simp)
    · rw [hp] at hnone
      exact absurd hnone (by simp)
    · rcases reportAndClean_spec env x y r g b with ⟨_, hc⟩ | ⟨_, hc⟩ <;>
        simp [hg, hc]
    · simp [hg]

/-- C6 witness at a concrete input: looking up (200, 7) in a 100 by 100
capture takes the out-of-bounds panic branch. -/
theorem C6_witness :
    get_rgb sampleEnv 200 7 =
      { writes := [(Stream.stderr, Line.panicPixelOutOfBounds)]
        fileOnDisk := true
        exit := some (ExitKind.code 101) } :=
  (C6_out_of_bounds_defined sampleEnv 200 7 rfl).1 (by decide)

/-- C8: the streams are partitioned: a write lands on standard output exactly
when it is the normal sampling report; every error message lands on standard
error, and no error text is ever emitted on standard output. -/
theorem C8_errors_on_stderr_only (env : Env) (x y : Int) (p : Stream × Line)
    (hp : p ∈ (get_rgb env x y).writes) :
    p.1 = Stream.stdout ↔ isReport p.2 = true := by
  rcases get_rgb_spec env x y with
    ⟨_, hg⟩ | ⟨_, _, hg⟩ | ⟨r, g, b, rest, _, _, _, hg⟩ | ⟨cs, _, _, _, _, hg⟩
  · rw [hg] at hp
    simp at hp
    rcases hp with rfl
    simp [isReport]
  · rw [hg] at hp
    simp at hp
    rcases hp with rfl
    simp [isReport]
  · rcases reportAndClean_spec env x y r g b with ⟨_, hc⟩ | ⟨_, hc⟩
    · rw [hg, hc] at hp
      simp at hp
      rcases hp with rfl
      simp [isReport]
    · rw [hg, hc] at hp
      simp at hp
      rcases hp with rfl | rfl <;> simp [isReport]
  · rw [hg] at hp
    simp at hp
    rcases hp with rfl
    simp [isReport]

/-- C8 witness at a concrete input: the report line of a clean sample sits on
standard output and is the sampling report. -/
theorem C8_witness :
    (Stream.stdout, Line.report 5 7 1 2 3).1 = Stream.stdout ↔
      isReport (Stream.stdout, Line.report 5 7 1 2 3).2 = true :=
  C8_errors_on_stderr_only sampleEnv 5 7
    (Stream.stdout, Line.report 5 7 1 2 3) (by decide)

/-- C10: when the decoded pixel layout is neither 3- nor 4-channel the process
exits with code 2 before the file-removal step, leaving the temporary
screenshot file on disk; the no-artifact round trip holds exactly for the
iterations that complete normally. -/
theorem C10_exit2_leaves_temp_file (env : Env) (x y : Int) :
    (∀ cs, env.openOk = true →
      getPixel env.captured (toU32 x) (toU32 y) = some cs →
      cs.length ≠ 3 → cs.length ≠ 4 →
      (get_rgb env x y).exit = some (ExitKind.code 2) ∧
        (get_rgb env x y).fileOnDisk = true) ∧
    ((get_rgb env x y).exit = none → (get_rgb env x y).fileOnDisk = false) := by
  rcases get_rgb_spec env x y with
    ⟨ho, hg⟩ | ⟨ho, hpx, hg⟩ | ⟨r, g, b, rest, ho, hpx, hrest, hg⟩ | ⟨cs, ho, hpx, h3, h4, hg⟩
  · constructor
    · intro cs hopen _ _ _
      rw [ho] at hopen
      exact absurd hopen (by simp)
    · simp [hg]
  · constructor
    · intro cs _ hcs _ _
      rw [hpx] at hcs
      exact absurd hcs (by simp)
    · simp [hg]
  · rcases reportAndClean_spec env x y r g b with ⟨hr, hc⟩ | ⟨hr, hc⟩
    · constructor
      · intro cs _ hcs hc3 hc4
        rw [hpx] at hcs
        rcases Option.some.inj hcs with rfl
        rcases hrest with rfl | ⟨a, rfl⟩
        · exact absurd rfl hc3
        · exact absurd rfl hc4
      · simp [hg, hc]
    · constructor
      · intro cs _ hcs hc3 hc4
        rw [hpx] at hcs
        rcases Option.some.inj hcs with rfl
        rcases hrest with rfl | ⟨a, rfl⟩
        · exact absurd rfl hc3
        · exact absurd rfl hc4
      · simp [hg, hc]
  · constructor
    · intro _ _ _ _ _
      simp [hg]
    · simp [hg]

/-- C10 witness at a concrete input: a grayscale pixel makes get_rgb exit
with code 2 and leave the temporary file on disk. -/
theorem C10_witness :
    (get_rgb { captured := { width := 8, height := 8, pixelAt := fun _ _ => [9] }
               openOk := true
               removeOk := true } 0 0).exit = some (ExitKind.code 2) ∧
      (get_rgb { captured := { width := 8, height := 8, pixelAt := fun _ _ => [9] }
                 openOk := true
                 removeOk := true } 0 0).fileOnDisk = true :=
  (C10_exit2_leaves_temp_file
    { captured := { width := 8, height := 8, pixelAt := fun _ _ => [9] }
      openOk := true
      removeOk := true } 0 0).1 [9] rfl (by decide) (by decide) (by decide)

/-- C9: a negative cursor coordinate is not rejected, clamped, or reported
specially: the i32 value is cast to u32 as its value modulo 2 to the 32, so
-1 becomes 4294967295, every negative i32 x becomes x plus 2 to the 32, and
the pixel lookup really receives the wrapped coordinate: on a capture wide
enough to contain column 4294967295, get_rgb at x = -1 reads that column. -/
theorem C9_negative_coordinate_wraps :
    toU32 (-1) = 4294967295 ∧
    (∀ x : Int, -(2 ^ 31) ≤ x → x < 0 → toU32 x = (x + 2 ^ 32).toNat) ∧
    get_rgb { captured := wideImage, openOk := true, removeOk := true } (-1) 0 =
      { writes := [(Stream.stdout, Line.report (-1) 0 7 8 9)]
        fileOnDisk := false
        exit := none } := by
  refine ⟨by decide, ?_, by decide⟩
  intro x h1 h2
  unfold toU32 U32MOD
  omega

/-- C9 witness at a concrete input: the cast of -5 is -5 plus 2 to the 32. -/
theorem C9_witness :
    toU32 (-5) = ((-5 : Int) + 2 ^ 32).toNat :=
  C9_negative_coordinate_wraps.2.1 (-5) (by decide) (by decide)

theorem iterTrace_of_ok (env : Env) (x y : Int) (h : iterOk env x y) :
    iterTrace env x y = (fullIter env x y, none) := by
  obtain ⟨ho, hr, r, g, b, rest, hp, hrest⟩ := h
  rcases hrest with rfl | ⟨a, rfl⟩ <;>
    simp [iterTrace, ho, hp, iterFinish, hr, fullIter, chan]

theorem run_succ (script : Nat → Env × Int × Int) (n : Nat) :
    run script (n + 1) =
      if (run script n).2.isSome then run script n
      else ((run script n).1 ++ (iterTrace (script n).1 (script n).2.1 (script n).2.2).1,
            (iterTrace (script n).1 (script n).2.1 (script n).2.2).2) := by
  rfl

/-- C5: the loop is strictly sequential; under clean iterations every
iteration contributes exactly the six steps query cursor, capture, open and
decode, report, delete temporary file, sleep, in that order, the iterations
follow each other in script order with no interleaving, and the run never
terminates on its own. -/
theorem C5_strict_sequential_order (script : Nat → Env × Int × Int) (n : Nat)
    (h : ∀ k, k < n → iterOk (script k).1 (script k).2.1 (script k).2.2) :
    run script n =
      (((List.range n).map
          (fun k => fullIter (script k).1 (script k).2.1 (script k).2.2)).flatten,
       none) := by
  induction n with
  | zero => rfl
  | succ n ih =>
    have ihn := ih (fun k hk => h k (Nat.lt_succ_of_lt hk))
    have hit := iterTrace_of_ok (script n).1 (script n).2.1 (script n).2.2
      (h n (Nat.lt_succ_self n))
    rw [run_succ, ihn, hit]
    simp [List.range_succ]

/-- C5 witness at a concrete input: two clean iterations of the sample script
produce exactly the two six-step traces in order and do not terminate. -/
theorem C5_witness :
    run sampleScript 2 =
      (((List.range 2).map
          (fun k => fullIter (sampleScript k).1 (sampleScript k).2.1
            (sampleScript k).2.2)).flatten,
       none) :=
  C5_strict_sequential_order sampleScript 2
    (fun _ _ => ⟨rfl, rfl, 1, 2, 3, [], rfl, Or.inl rfl⟩)

theorem run_halted (script : Nat → Env × Int × Int) :
    ∀ m n, n ≤ m → (run script n).2.isSome = true → run script m = run script n := by
  intro m
  induction m with
  | zero =>
    intro n hn _
    have h0 : n = 0 := Nat.le_zero.mp hn
    rw [h0]
  | succ m ih =>
    intro n hn hs
    rcases eq_or_lt_of_le hn with rfl | hlt
    · rfl
    · have hnm : n ≤ m := Nat.lt_succ_iff.mp hlt
      have hr := ih n hnm hs
      rw [run_succ, hr, if_pos hs]

/-- C7: a failed image open or decode is fatal: the call prints the panic
message on standard error and terminates the process with the non-zero status
101, and a run of the loop performs no further iterations after any iteration
that ends in a fatal exit. -/
theorem C7_decode_failure_fatal (env : Env) (x y : Int)
    (script : Nat → Env × Int × Int) (m n : Nat) :
    (env.openOk = false →
      get_rgb env x y =
        { writes := [(Stream.stderr, Line.panicFailedToOpen)]
          fileOnDisk := true
          exit := some (ExitKind.code 101) } ∧
      iterTrace env x y =
        ([Event.queryCursor x y, Event.capture], some (ExitKind.code 101))) ∧
    (n ≤ m → (run script n).2.isSome = true → run script m = run script n) := by
  constructor
  · intro ho
    constructor
    · simp [get_rgb, ho]
    · simp [iterTrace, ho]
  · intro hnm hs
    exact run_halted script m n hnm hs

/-- C7 witness at a concrete input: an iteration whose open fails exits with
status 101, and a run halted after one such iteration performs nothing more. -/
theorem C7_witness :
    (get_rgb { captured := sampleImage, openOk := false, removeOk := true } 5 7 =
      { writes := [(Stream.stderr, Line.panicFailedToOpen)]
        fileOnDisk := true
        exit := some (ExitKind.code 101) } ∧
      iterTrace { captured := sampleImage, openOk := false, removeOk := true } 5 7 =
        ([Event.queryCursor 5 7, Event.capture], some (ExitKind.code 101))) ∧
    run (fun _ => ({ captured := sampleImage, openOk := false, removeOk := true }, 5, 7)) 3 =
      run (fun _ => ({ captured := sampleImage, openOk := false, removeOk := true }, 5, 7)) 1 :=
  ⟨(C7_decode_failure_fatal
      { captured := sampleImage, openOk := false, removeOk := true } 5 7
      (fun _ => ({ captured := sampleImage, openOk := false, removeOk := true }, 5, 7)) 3 1).1 rfl,
   (C7_decode_failure_fatal
      { captured := sampleImage, openOk := false, removeOk := true } 5 7
      (fun _ => ({ captured := sampleImage, openOk := false, removeOk := true }, 5, 7)) 3 1).2
     (by decide) (by decide)⟩

theorem applyEvent_inv (path : Nat) (fs : List Nat) (e : Event)
    (h : FsInv path fs) : FsInv path (applyEvent path fs e) := by
  rcases h with rfl | rfl <;> cases e <;> simp [applyEvent, FsInv]

theorem fsAfter_inv (path : Nat) :
    ∀ (tr : List Event) (fs : List Nat), FsInv path fs →
      FsInv path (fsAfter path fs tr) := by
  intro tr
  induction tr with
  | nil => intro fs h; exact h
  | cons e es ih =>
    intro fs h
    exact ih (applyEvent path fs e) (applyEvent_inv path fs e h)

theorem fsAfter_append (path : Nat) :
    ∀ (tr1 tr2 : List Event) (fs : List Nat),
      fsAfter path fs (tr1 ++ tr2) = fsAfter path (fsAfter path fs tr1) tr2 := by
  intro tr1
  induction tr1 with
  | nil => intro tr2 fs; rfl
  | cons e es ih => intro tr2 fs; simp [fsAfter, ih]

theorem iterTrace_none_clears (path : Nat) (env : Env) (x y : Int)
    (h : (iterTrace env x y).2 = none) (fs : List Nat) (hfs : FsInv path fs) :
    fsAfter path fs (iterTrace env x y).1 = [] := by
  cases ho : env.openOk with
  | false => simp [iterTrace, ho] at h
  | true =>
    cases hp : getPixel env.captured (toU32 x) (toU32 y) with
    | none => simp [iterTrace, ho, hp] at h
    | some cs =>
      have clean : ∀ r g b : Nat, env.removeOk = true →
          fsAfter path fs
            [Event.queryCursor x y, Event.capture, Event.openDecode,
             Event.report x y r g b, Event.deleteTemp, Event.sleep] = [] := by
        intro r g b _
        rcases hfs with rfl | rfl <;> simp [fsAfter, applyEvent]
      rcases cs with _ | ⟨r, _ | ⟨g, _ | ⟨b, _ | ⟨a, _ | ⟨e, es⟩⟩⟩⟩⟩
      · simp [iterTrace, ho, hp] at h
      · simp [iterTrace, ho, hp] at h
      · simp [iterTrace, ho, hp] at h
      · cases hr : env.removeOk with
        | false => simp [iterTrace, ho, hp, iterFinish, hr] at h
        | true => simp [iterTrace, ho, hp, iterFinish, hr]; exact clean r g b hr
      · cases hr : env.removeOk with
        | false => simp [iterTrace, ho, hp, iterFinish, hr] at h
        | true => simp [iterTrace, ho, hp, iterFinish, hr]; exact clean r g b hr
      · simp [iterTrace, ho, hp] at h

theorem run_none_clears (path : Nat) (script : Nat → Env × Int × Int) :
    ∀ n, (run script n).2 = none → fsAfter path [] (run script n).1 = [] := by
  intro n
  induction n with
  | zero => intro _; rfl
  | succ n ih =>
    intro h
    rw [run_succ] at h
    cases hs : (run script n).2 with
    | some e =>
      exfalso
      rw [hs] at h
      simp at h
      rw [h] at hs
      exact Option.noConfusion hs
    | none =>
      rw [hs] at h
      simp at h
      rw [run_succ]
      simp [hs]
      rw [fsAfter_append, ih hs]
      exact iterTrace_none_clears path (script n).1 (script n).2.1 (script n).2.2 h
        [] (Or.inl rfl)

/-- C4: at most one captured-image file ever exists: along every prefix of
every run of the loop the files on disk number at most one, and whenever a
run has not ended in a fatal exit the temporary file has been deleted, so the
file count never grows across iterations. -/
theorem C4_at_most_one_capture_file (path : Nat)
    (script : Nat → Env × Int × Int) (n : Nat) :
    (∀ tr1 tr2, (run script n).1 = tr1 ++ tr2 →
      (fsAfter path [] tr1).length ≤ 1) ∧
    ((run script n).2 = none → fsAfter path [] (run script n).1 = []) := by
  constructor
  · intro tr1 tr2 _
    rcases fsAfter_inv path tr1 [] (Or.inl rfl) with h | h <;> simp [h]
  · exact run_none_clears path script n

/-- C4 witness at a concrete input: after the capture of the first sample
iteration exactly one file is on disk, and a clean two-iteration run ends
with the temporary file deleted. -/
theorem C4_witness :
    (fsAfter 0 [] [Event.queryCursor 5 7, Event.capture]).length ≤ 1 ∧
      fsAfter 0 [] (run sampleScript 2).1 = [] :=
  ⟨(C4_at_most_one_capture_file 0 sampleScript 2).1
      [Event.queryCursor 5 7, Event.capture]
      [Event.openDecode, Event.report 5 7 1 2 3, Event.deleteTemp, Event.sleep,
       Event.queryCursor 5 7, Event.capture, Event.openDecode,
       Event.report 5 7 1 2 3, Event.deleteTemp, Event.sleep]
      (by decide),
   (C4_at_most_one_capture_file 0 sampleScript 2).2 (by decide)⟩

end ColorPicker
